import Mathlib

/-!
Shallow embedding of the `rag_resume_screener` repository: a resume
question-answering pipeline (load PDFs → split into chunks → embed and
upsert into a hosted vector index → retrieve top-k chunks for a question →
render a fixed HR prompt → call a hosted chat model).

External hosted services (the Pinecone vector index, the HuggingFace
embedding and chat endpoints) and the two library collaborators whose
behaviour the orchestration depends on (template substitution, similarity
search) are modelled per their documented interfaces as the specification
describes them; everything else is translated from the Python sources
(`main.py`, `ingest.py`, `src/rag/chain.py`, `src/rag/llm.py`,
`src/retriever/vector_store.py`).

Machine strings are modelled as Lean `String`; fallible calls return
`Except String α` (the error payload is the stringified Python exception);
the remote Pinecone state is threaded explicitly as a value.
-/

namespace ResumeScreener

/-! ## Data model -/

/-- A LangChain `Document`: a unit of loaded text (or a chunk derived from
one).  `page_content` is the text, `metadata` the string-keyed mapping
(at minimum `source`, optionally `page`). -/
structure Document where
  page_content : String
  metadata : List (String × String)
  deriving DecidableEq, Repr

/-- The remote representation of a chunk inside the Pinecone index: a
library-chosen identifier, the embedding vector (modelled over `Int`),
the chunk text and its metadata. -/
structure IndexRecord where
  id : String
  vector : List Int
  content : String
  metadata : List (String × String)
  deriving DecidableEq, Repr

/-- One remote Pinecone index: its name, the creation parameters
(`dimension`, `metric`, `ServerlessSpec` cloud/region) and its records. -/
structure RemoteIndex where
  name : String
  dimension : Nat
  metric : String
  cloud : String
  region : String
  records : List IndexRecord
  deriving DecidableEq, Repr

/-- The remote Pinecone project state: the list of existing indexes. -/
abbrev RemoteState := List RemoteIndex

/-! ## Python string helpers -/

/-- ASCII whitespace as Python's `str.strip` treats it
(space, tab, newline, carriage return, vertical tab, form feed). -/
def isPySpace (c : Char) : Bool :=
  c = ' ' || c = '\t' || c = '\n' || c = '\r' || c = '\x0b' || c = '\x0c'

/-- Python `str.strip()`: drop leading and trailing whitespace. -/
def pyStrip (s : String) : String :=
  String.mk (((s.data.dropWhile isPySpace).reverse.dropWhile isPySpace).reverse)

/-! ## `src/rag/chain.py` -/

/-- `HR_PROMPT_TEMPLATE` from `src/rag/chain.py`, verbatim. -/
def HR_PROMPT_TEMPLATE : String :=
  "You are an expert HR assistant. Answer based ONLY on the provided resumes:\nContext: {context}\n\nQuestion: {input}"

/-- One piece of a parsed prompt template: a literal run of text, the
`{context}` slot or the `{input}` slot. -/
inductive TemplatePart where
  | lit (s : String)
  | contextSlot
  | inputSlot
  deriving DecidableEq, Repr

/-- Map a template part back to its surface text (slots to their
placeholder spelling). -/
def flattenPart : TemplatePart → String
  | TemplatePart.lit s => s
  | TemplatePart.contextSlot => "{context}"
  | TemplatePart.inputSlot => "{input}"

/-- Substitute the two slots of a template part (single-pass, as
`ChatPromptTemplate.format` substitutes: values are never re-scanned). -/
def renderPart (ctx input : String) : TemplatePart → String
  | TemplatePart.lit s => s
  | TemplatePart.contextSlot => ctx
  | TemplatePart.inputSlot => input

/-- Concatenate a list of strings (in order). -/
def concatStrings : List String → String
  | [] => ""
  | s :: rest => s ++ concatStrings rest

/-- The parse of `HR_PROMPT_TEMPLATE` into literal runs and slots, as
`ChatPromptTemplate.from_template` parses it. -/
def HR_PROMPT_PARTS : List TemplatePart :=
  [TemplatePart.lit "You are an expert HR assistant. Answer based ONLY on the provided resumes:\nContext: ",
   TemplatePart.contextSlot,
   TemplatePart.lit "\n\nQuestion: ",
   TemplatePart.inputSlot]

/-- The parse is faithful: flattening the parts gives back the source
template string character for character. -/
theorem hr_prompt_parts_flatten :
    concatStrings (HR_PROMPT_PARTS.map flattenPart) = HR_PROMPT_TEMPLATE := by
  decide

/-- Modelled from the spec: the chain wires the retriever's document list
into the prompt's `{context}` variable; the spec (§4.6 step Render)
describes the substituted value as the retrieved chunks' concatenated
content.  Concatenation separates consecutive chunks with a blank line. -/
def formatContext : List Document → String
  | [] => ""
  | [d] => d.page_content
  | d :: rest => d.page_content ++ "\n\n" ++ formatContext rest

/-- Render the fixed HR prompt: substitute the context text and the raw
question into the template's two slots. -/
def renderPrompt (ctx input : String) : String :=
  concatStrings (HR_PROMPT_PARTS.map (renderPart ctx input))

/-- The product of `build_rag_chain`: the retriever's configured `k`
(the `search_kwargs` of `as_retriever`) and the runnable itself. -/
structure RagChain where
  k : Nat
  run : String → Except String String

/-- `build_rag_chain` from `src/rag/chain.py`.  The vector store is
represented by its retrieval interface `retrieveFn query k` (the
`as_retriever(search_kwargs={"k": k})` call fixes `k`); the chain pipes
the query through the retriever into the `{context}` slot and verbatim
(`RunnablePassthrough`) into the `{input}` slot, renders the fixed HR
template, and invokes the model.  Python default: `k = 5`. -/
def build_rag_chain (retrieveFn : String → Nat → Except String (List Document))
    (llm : String → Except String String) (k : Nat := 5) : RagChain :=
  { k := k
    run := fun query =>
      match retrieveFn query k with
      | Except.error e => Except.error e
      | Except.ok docs => llm (renderPrompt (formatContext docs) query) }

/-- `ask_question` from `src/rag/chain.py`: build a fresh chain and invoke
it on the query.  Python default: `k = 5`. -/
def ask_question (query : String)
    (retrieveFn : String → Nat → Except String (List Document))
    (llm : String → Except String String) (k : Nat := 5) : Except String String :=
  (build_rag_chain retrieveFn llm k).run query

/-! ## `main.py`: the Gradio handler -/

/-- `screen_resume` from `main.py`: the handler wired to the submit
button.  A blank (after `strip()`) question short-circuits with the fixed
prompt-for-input message; otherwise `ask_question` runs and any exception
is caught and rendered as `"Error: {exc}"`. -/
def screen_resume (retrieveFn : String → Nat → Except String (List Document))
    (llm : String → Except String String) (user_question : String) : String :=
  if pyStrip user_question = "" then "Please enter a question."
  else
    match ask_question user_question retrieveFn llm with
    | Except.ok answer => answer
    | Except.error exc => "Error: " ++ exc

/-! ## `src/retriever/vector_store.py` -/

/-- `_ensure_index_exists` from `src/retriever/vector_store.py`: if no
index named `index_name` exists, create one (empty) with the given
dimension, metric and `ServerlessSpec(cloud, region)`; otherwise skip
creation.  Python defaults: `dimension = 384`, `metric = "cosine"`,
`cloud = "aws"`, `region = "us-east-1"`. -/
def ensure_index_exists (st : RemoteState) (index_name : String)
    (dimension : Nat := 384) (metric : String := "cosine")
    (cloud : String := "aws") (region : String := "us-east-1") : RemoteState :=
  let existing := st.map (fun idx => idx.name)
  if index_name ∈ existing then st
  else st ++ [{ name := index_name, dimension := dimension, metric := metric,
                cloud := cloud, region := region, records := [] }]

/-- The records currently held by the index named `name` (empty when no
such index exists). -/
def recordsOf (st : RemoteState) (name : String) : List IndexRecord :=
  match st.find? (fun idx => idx.name = name) with
  | some idx => idx.records
  | none => []

/-- The index records `PineconeVectorStore.from_documents` writes: one per
chunk, embedding the chunk's content; identifiers are library-generated
(modelled by `ids`, applied to the chunk's position starting at `i`). -/
def upsertRecords (embed : String → List Int) (ids : Nat → String) :
    Nat → List Document → List IndexRecord
  | _, [] => []
  | i, c :: rest =>
    { id := ids i, vector := embed c.page_content,
      content := c.page_content, metadata := c.metadata }
      :: upsertRecords embed ids (i + 1) rest

/-- Append the given records to the index named `name` (no other index is
touched; a write to an absent index is dropped by the service). -/
def upsertIntoIndex (name : String) (recs : List IndexRecord) (st : RemoteState) :
    RemoteState :=
  st.map fun idx =>
    if idx.name = name then { idx with records := idx.records ++ recs } else idx

/-- What a Python function hands back to its caller, typed as the
discriminated union of the shapes this module actually returns: a
`PineconeVectorStore` handle on a named index, or a number. -/
inductive PyRet where
  | store (index_name : String)
  | count (n : Nat)
  deriving DecidableEq, Repr

/-- `create_vector_store` from `src/retriever/vector_store.py`: initialise
the Pinecone client with the API key, ensure the index exists (with the
module's fixed creation defaults), embed every chunk and upsert the
records (`PineconeVectorStore.from_documents`), and return the vector
store handle.  The remote state is threaded explicitly. -/
def create_vector_store (embed : String → List Int) (ids : Nat → String)
    (chunks : List Document) (index_name : String)
    (pinecone_api_key : String) (st : RemoteState) : PyRet × RemoteState :=
  let _pc := pinecone_api_key
  let st1 := ensure_index_exists st index_name
  (PyRet.store index_name,
   upsertIntoIndex index_name (upsertRecords embed ids 0 chunks) st1)

/-- `load_vector_store` from `src/retriever/vector_store.py`: initialise
the Pinecone client (a key-validity guard only), build the embedding
model, and wrap the existing index in a `PineconeVectorStore` handle —
no document is upserted and no index is created. -/
def load_vector_store (index_name : String) (pinecone_api_key : String)
    (st : RemoteState) : PyRet × RemoteState :=
  let _pc := pinecone_api_key
  (PyRet.store index_name, st)

/-! ## The retrieval operation of the hosted index

Modelled from the spec: similarity search runs inside the hosted Pinecone
service (the source only configures `as_retriever(search_kwargs={"k": k})`).
Spec §4.4: `retrieve(query, index_name, k)` embeds the query, ranks the
index's records by similarity (highest first) and returns the top `k`,
or all records when the index holds fewer than `k`. -/

/-- Ranking relation for a fixed query: record `a` comes no later than
record `b` when `a`'s similarity score is at least `b`'s. -/
def simOrder (score : String → String → Int) (query : String)
    (a b : IndexRecord) : Prop :=
  score query b.content ≤ score query a.content

instance (score : String → String → Int) (query : String) :
    DecidableRel (simOrder score query) :=
  fun _ _ => Int.decLe _ _

instance (score : String → String → Int) (query : String) :
    IsTotal IndexRecord (simOrder score query) :=
  ⟨fun x y => (le_total (score query y.content) (score query x.content)).imp id id⟩

instance (score : String → String → Int) (query : String) :
    IsTrans IndexRecord (simOrder score query) :=
  ⟨fun _ _ _ hab hbc => le_trans hbc hab⟩

/-- Modelled from the spec: the hosted index's nearest-neighbour search —
sort the named index's records by descending similarity to the query and
keep the first `k`. -/
def retrieve (score : String → String → Int) (st : RemoteState)
    (index_name query : String) (k : Nat) : List IndexRecord :=
  (List.insertionSort (simOrder score query) (recordsOf st index_name)).take k

/-! ## `src/rag/llm.py` -/

/-- `DEFAULT_MODEL_ID` from `src/rag/llm.py`. -/
def DEFAULT_MODEL_ID : String := "meta-llama/Llama-3.2-3B-Instruct"

/-- The `HuggingFaceEndpoint` the factory configures (its construction is
the first point that owns network access; temperature is modelled as an
exact rational). -/
structure HuggingFaceEndpoint where
  repo_id : String
  task : String
  max_new_tokens : Nat
  temperature : Rat
  huggingfacehub_api_token : String
  deriving DecidableEq, Repr

/-- The `ChatHuggingFace` wrapper around the raw endpoint. -/
structure ChatHuggingFace where
  llm : HuggingFaceEndpoint
  deriving DecidableEq, Repr

/-- Python `a or b` on optional strings: `a` unless `a` is falsy
(`None` or `""`). -/
def pyOrStr (a b : Option String) : Option String :=
  match a with
  | none => b
  | some s => if s = "" then b else some s

/-- The `ValueError` message `get_llm` raises when no token is supplied. -/
def NO_TOKEN_MSG : String :=
  "No HuggingFace token provided. Set HUGGINGFACEHUB_API_TOKEN or pass hf_token explicitly."

/-- `get_llm` from `src/rag/llm.py`: resolve the token as
`hf_token or os.getenv("HUGGINGFACEHUB_API_TOKEN")` (`env_token` is that
environment lookup), raise `ValueError` when the result is falsy, and
only then construct the endpoint and its chat wrapper.  Python defaults:
`model_id = DEFAULT_MODEL_ID`, `max_new_tokens = 512`,
`temperature = 0.1`. -/
def get_llm (env_token : Option String) (model_id : String := DEFAULT_MODEL_ID)
    (max_new_tokens : Nat := 512) (temperature : Rat := 1 / 10)
    (hf_token : Option String := none) : Except String ChatHuggingFace :=
  match pyOrStr hf_token env_token with
  | none => Except.error NO_TOKEN_MSG
  | some t =>
    if t = "" then Except.error NO_TOKEN_MSG
    else
      Except.ok
        { llm := { repo_id := model_id, task := "text-generation",
                   max_new_tokens := max_new_tokens, temperature := temperature,
                   huggingfacehub_api_token := t } }

/-! ## `src/loaders` (document splitting) -/

/-- Modelled from the spec: `src/loaders/document_loader.py` (`split_docs`)
is not among the provided sources — only its tests and callers are.  Spec
§4.2: splitting is character-count based with overlap; consecutive windows
of the same document share `chunk_overlap` characters, no chunk exceeds
`chunk_size` characters.  `step = chunk_size - chunk_overlap` is the
window stride; a non-positive stride (the spec leaves `overlap ≥ size`
undefined) degenerates to a single window.  `splitCharsGo` carries the
recursion fuel. -/
def splitCharsGo (size step : Nat) : Nat → List Char → List (List Char)
  | 0, cs => [cs.take size]
  | fuel + 1, cs =>
    if cs.length ≤ size ∨ step = 0 then [cs.take size]
    else cs.take size :: splitCharsGo size step fuel (cs.drop step)

/-- Split a character sequence into windows of at most `size` characters,
advancing by `step` characters per window.  The fuel `cs.length` is always
sufficient: each taken step strictly shortens the sequence. -/
def splitChars (size step : Nat) (cs : List Char) : List (List Char) :=
  splitCharsGo size step cs.length cs

/-- Modelled from the spec: `split_docs(docs, chunk_size, chunk_overlap)`
splits every document's content into overlapping character windows, each
resulting chunk carrying its parent document's metadata unchanged.
Spec defaults: `chunk_size ≈ 1000`, `chunk_overlap ≈ 100`. -/
def split_docs (docs : List Document) (chunk_size : Nat := 1000)
    (chunk_overlap : Nat := 100) : List Document :=
  docs.flatMap fun d =>
    (splitChars chunk_size (chunk_size - chunk_overlap) d.page_content.data).map
      fun cs => { page_content := String.mk cs, metadata := d.metadata }

/-! ## `ingest.py` -/

/-- `_require_env` from `ingest.py` (and identically `main.py`): read the
environment variable, default `""`, strip it; a blank value exits the
process with status 1, otherwise the stripped value is returned.
`Except Nat` carries the exit status of a `sys.exit` path. -/
def require_env (env : String → Option String) (name : String) : Except Nat String :=
  let value := pyStrip ((env name).getD "")
  if value = "" then Except.error 1 else Except.ok value

/-- `main()` of `ingest.py`, the one-shot ingestion command: require the
two credentials (exit 1 when blank/missing), read the optional index name
and resumes directory, load the PDFs (`docsOf` is the loader applied to a
directory), exit 1 when none were found, otherwise split, embed, upsert
and finish.  `Except.ok` is the exit-0 path carrying the final remote
state. -/
def ingest_main (env : String → Option String)
    (docsOf : String → List Document) (embed : String → List Int)
    (ids : Nat → String) (st : RemoteState) : Except Nat RemoteState :=
  match require_env env "PINECONE_API_KEY" with
  | Except.error c => Except.error c
  | Except.ok pinecone_api_key =>
    match require_env env "HUGGINGFACEHUB_API_TOKEN" with
    | Except.error c => Except.error c
    | Except.ok _hf_token =>
      let index_name := (env "PINECONE_INDEX_NAME").getD "resumes-index"
      let resumes_dir := (env "RESUMES_DIR").getD "./resumes"
      let docs := docsOf resumes_dir
      if docs.isEmpty then Except.error 1
      else
        let chunks := split_docs docs
        Except.ok (create_vector_store embed ids chunks index_name pinecone_api_key st).2

/-! ## Substring containment -/

/-- `t` occurs contiguously inside `s`. -/
def containsSub (s t : String) : Prop :=
  ∃ pre post, s.data = pre ++ t.data ++ post

theorem containsSub_refl (s : String) : containsSub s s :=
  ⟨[], [], by simp⟩

theorem containsSub_append_left {a t : String} (b : String)
    (h : containsSub a t) : containsSub (a ++ b) t := by
  obtain ⟨pre, post, hd⟩ := h
  exact ⟨pre, post ++ b.data, by simp [String.data_append, hd]⟩

theorem containsSub_append_right {b t : String} (a : String)
    (h : containsSub b t) : containsSub (a ++ b) t := by
  obtain ⟨pre, post, hd⟩ := h
  exact ⟨a.data ++ pre, post, by simp [String.data_append, hd]⟩

theorem containsSub_trans {s t u : String} (hst : containsSub s t)
    (htu : containsSub t u) : containsSub s u := by
  obtain ⟨p1, q1, h1⟩ := hst
  obtain ⟨p2, q2, h2⟩ := htu
  exact ⟨p1 ++ p2, q2 ++ q1, by simp [h1, h2]⟩

/-! ## Claim theorems -/

/-- C1: for every question string that is blank after stripping whitespace,
`screen_resume` returns the fixed prompt-for-input message, whatever the
retriever and language model are — so neither is ever invoked (the result
coincides for all retriever/model instantiations). -/
theorem C1_blank_question_short_circuits
    (retrieveFn : String → Nat → Except String (List Document))
    (llm : String → Except String String) (q : String)
    (h : pyStrip q = "") :
    screen_resume retrieveFn llm q = "Please enter a question." ∧
    ∀ (retrieveFn2 : String → Nat → Except String (List Document))
      (llm2 : String → Except String String),
      screen_resume retrieveFn2 llm2 q = screen_resume retrieveFn llm q := by
  refine ⟨by simp [screen_resume, h], ?_⟩
  intro r2 l2
  simp [screen_resume, h]

theorem C1_blank_question_short_circuits_witness :
    pyStrip " \t\n " = "" ∧
    screen_resume (fun _ _ => Except.ok []) (fun p => Except.ok p) " \t\n " =
      "Please enter a question." :=
  ⟨by decide,
   (C1_blank_question_short_circuits (fun _ _ => Except.ok [])
      (fun p => Except.ok p) " \t\n " (by decide)).1⟩

/-- C2: for every non-blank question, the handler's boundary catches any
failure of `ask_question` and returns the `"Error: …"` string instead of
propagating it, and a success is returned verbatim (one call, no retry, no
partial answer). -/
theorem C2_exceptions_become_error_strings
    (retrieveFn : String → Nat → Except String (List Document))
    (llm : String → Except String String) (q : String)
    (h : pyStrip q ≠ "") :
    (∀ e, ask_question q retrieveFn llm = Except.error e →
        screen_resume retrieveFn llm q = "Error: " ++ e) ∧
    (∀ a, ask_question q retrieveFn llm = Except.ok a →
        screen_resume retrieveFn llm q = a) := by
  constructor <;> intro x hx <;> simp [screen_resume, h, hx]

theorem C2_exceptions_become_error_strings_witness :
    pyStrip "Who knows Python?" ≠ "" ∧
    screen_resume (fun _ _ => Except.error "boom") (fun p => Except.ok p)
      "Who knows Python?" = "Error: boom" :=
  ⟨by decide,
   (C2_exceptions_become_error_strings (fun _ _ => Except.error "boom")
      (fun p => Except.ok p) "Who knows Python?" (by decide)).1 "boom" rfl⟩

/-- C8: `get_llm` fails fast: when neither the `hf_token` argument nor the
environment variable supplies a non-empty token it raises the `ValueError`
(no endpoint is constructed), and with a non-empty token present it
returns the configured `ChatHuggingFace` carrying that token. -/
theorem C8_get_llm_fails_fast (env_token hf_token : Option String)
    (model_id : String) (mnt : Nat) (temp : Rat) :
    ((hf_token = none ∨ hf_token = some "") ∧
        (env_token = none ∨ env_token = some "") →
      get_llm env_token model_id mnt temp hf_token = Except.error NO_TOKEN_MSG) ∧
    (∀ t, t ≠ "" → hf_token = some t →
      get_llm env_token model_id mnt temp hf_token =
        Except.ok { llm := { repo_id := model_id, task := "text-generation",
                             max_new_tokens := mnt, temperature := temp,
                             huggingfacehub_api_token := t } }) ∧
    (∀ t, t ≠ "" → (hf_token = none ∨ hf_token = some "") → env_token = some t →
      get_llm env_token model_id mnt temp hf_token =
        Except.ok { llm := { repo_id := model_id, task := "text-generation",
                             max_new_tokens := mnt, temperature := temp,
                             huggingfacehub_api_token := t } }) := by
  refine ⟨?_, ?_, ?_⟩
  · rintro ⟨hf | hf, he | he⟩ <;> subst hf <;> subst he <;>
      simp [get_llm, pyOrStr]
  · intro t ht hf
    subst hf
    simp [get_llm, pyOrStr, ht]
  · intro t ht hf he
    subst he
    rcases hf with hf | hf <;> subst hf <;> simp [get_llm, pyOrStr, ht]

theorem C8_get_llm_fails_fast_witness :
    get_llm none DEFAULT_MODEL_ID 512 (1 / 10) none = Except.error NO_TOKEN_MSG ∧
    get_llm (some "tok") DEFAULT_MODEL_ID 512 (1 / 10) none =
      Except.ok { llm := { repo_id := DEFAULT_MODEL_ID, task := "text-generation",
                           max_new_tokens := 512, temperature := 1 / 10,
                           huggingfacehub_api_token := "tok" } } :=
  ⟨(C8_get_llm_fails_fast none none DEFAULT_MODEL_ID 512 (1 / 10)).1
      ⟨Or.inl rfl, Or.inl rfl⟩,
   (C8_get_llm_fails_fast (some "tok") none DEFAULT_MODEL_ID 512 (1 / 10)).2.2
      "tok" (by decide) (Or.inl rfl) rfl⟩

/-- Upserting records never changes which indexes exist or their names. -/
theorem names_upsertIntoIndex (n : String) (recs : List IndexRecord) :
    ∀ st : RemoteState,
      (upsertIntoIndex n recs st).map (fun idx => idx.name) =
        st.map (fun idx => idx.name) := by
  intro st
  induction st with
  | nil => rfl
  | cons a t ih =>
    simp only [upsertIntoIndex, List.map_cons] at ih ⊢
    refine congrArg₂ (· :: ·) ?_ ih
    by_cases ha : a.name = n <;> simp [ha]

/-- C5: `_ensure_index_exists` creates the index — with the given
dimension, metric, cloud and region and no records — exactly when no index
of that name exists; when one exists (whatever its dimension) the remote
state is left untouched; and a second call is always a no-op, whatever
parameters it is given. -/
theorem C5_ensure_index_idempotent (st : RemoteState) (name : String)
    (d : Nat) (m c r : String) :
    (name ∉ st.map (fun idx => idx.name) →
      ensure_index_exists st name d m c r =
        st ++ [{ name := name, dimension := d, metric := m, cloud := c,
                 region := r, records := [] }]) ∧
    (name ∈ st.map (fun idx => idx.name) →
      ensure_index_exists st name d m c r = st) ∧
    (∀ d2 : Nat, ∀ m2 c2 r2 : String,
      ensure_index_exists (ensure_index_exists st name d m c r) name d2 m2 c2 r2 =
        ensure_index_exists st name d m c r) := by
  refine ⟨fun h => by simp [ensure_index_exists, h], fun h => by simp [ensure_index_exists, h], ?_⟩
  intro d2 m2 c2 r2
  by_cases h : name ∈ st.map (fun idx => idx.name)
  · simp [ensure_index_exists, h]
  · have h1 : ensure_index_exists st name d m c r =
        st ++ [{ name := name, dimension := d, metric := m, cloud := c,
                 region := r, records := [] }] := by
      simp [ensure_index_exists, h]
    rw [h1]
    simp [ensure_index_exists]

theorem C5_ensure_index_idempotent_witness :
    "resumes-index" ∉
      ([{ name := "other", dimension := 384, metric := "cosine", cloud := "aws",
          region := "us-east-1", records := [] }] : RemoteState).map
        (fun idx => idx.name) ∧
    ensure_index_exists
        [{ name := "other", dimension := 384, metric := "cosine", cloud := "aws",
           region := "us-east-1", records := [] }] "resumes-index" 384 "cosine"
        "aws" "us-east-1" =
      [{ name := "other", dimension := 384, metric := "cosine", cloud := "aws",
         region := "us-east-1", records := [] },
       { name := "resumes-index", dimension := 384, metric := "cosine",
         cloud := "aws", region := "us-east-1", records := [] }] :=
  ⟨by decide,
   (C5_ensure_index_idempotent
      [{ name := "other", dimension := 384, metric := "cosine", cloud := "aws",
         region := "us-east-1", records := [] }]
      "resumes-index" 384 "cosine" "aws" "us-east-1").1 (by decide)⟩

/-- C10: `load_vector_store` never writes to the remote index — the remote
state after a load is exactly the state before it, for every state
(present or absent index alike) — whereas `create_vector_store` on a state
lacking the index does create it (the index list gains the name). -/
theorem C10_load_vector_store_readonly (name key : String) (st : RemoteState) :
    (load_vector_store name key st).2 = st ∧
    (∀ (embed : String → List Int) (ids : Nat → String) (chunks : List Document),
      name ∉ st.map (fun idx => idx.name) →
      ((create_vector_store embed ids chunks name key st).2).map
          (fun idx => idx.name) =
        st.map (fun idx => idx.name) ++ [name]) := by
  refine ⟨rfl, ?_⟩
  intro embed ids chunks h
  simp only [create_vector_store, names_upsertIntoIndex]
  simp [ensure_index_exists, h]

theorem C10_load_vector_store_readonly_witness :
    (load_vector_store "resumes-index" "key" []).2 = ([] : RemoteState) ∧
    ((create_vector_store (fun _ => [0]) (fun _ => "id0")
        [{ page_content := "Alice resume", metadata := [("source", "alice_resume.pdf")] }]
        "resumes-index" "key" []).2).map (fun idx => idx.name) = ["resumes-index"] :=
  ⟨(C10_load_vector_store_readonly "resumes-index" "key" []).1,
   (C10_load_vector_store_readonly "resumes-index" "key" []).2
      (fun _ => [0]) (fun _ => "id0")
      [{ page_content := "Alice resume", metadata := [("source", "alice_resume.pdf")] }]
      (by decide)⟩

/-- One record is produced per chunk. -/
theorem upsertRecords_length (embed : String → List Int) (ids : Nat → String) :
    ∀ (chunks : List Document) (i : Nat),
      (upsertRecords embed ids i chunks).length = chunks.length := by
  intro chunks
  induction chunks with
  | nil => intro i; rfl
  | cons c rest ih => intro i; simp [upsertRecords, ih]

/-- The record at position `j` embeds exactly the `j`-th chunk's content
and carries its text and metadata. -/
theorem upsertRecords_getElem (embed : String → List Int) (ids : Nat → String) :
    ∀ (chunks : List Document) (i j : Nat),
      (upsertRecords embed ids i chunks)[j]? =
        (chunks[j]?).map fun c =>
          { id := ids (i + j), vector := embed c.page_content,
            content := c.page_content, metadata := c.metadata } := by
  intro chunks
  induction chunks with
  | nil => intro i j; simp [upsertRecords]
  | cons c rest ih =>
    intro i j
    cases j with
    | zero => simp [upsertRecords]
    | succ j2 =>
      have harith : i + (j2 + 1) = (i + 1) + j2 := by omega
      simp only [upsertRecords, List.getElem?_cons_succ, harith]
      exact ih (i + 1) j2

/-- After `_ensure_index_exists`, an index of the requested name exists. -/
theorem mem_names_ensure_index (st : RemoteState) (name : String)
    (d : Nat) (m c r : String) :
    name ∈ (ensure_index_exists st name d m c r).map (fun idx => idx.name) := by
  by_cases h : name ∈ st.map (fun idx => idx.name) <;>
    simp [ensure_index_exists, h]

/-- Upserting into an existing index appends exactly the given records to
that index's record list. -/
theorem recordsOf_upsertIntoIndex (n : String) (recs : List IndexRecord) :
    ∀ st : RemoteState, n ∈ st.map (fun idx => idx.name) →
      recordsOf (upsertIntoIndex n recs st) n = recordsOf st n ++ recs := by
  intro st
  induction st with
  | nil => intro h; cases h
  | cons a t ih =>
    intro h
    by_cases ha : a.name = n
    · simp [upsertIntoIndex, recordsOf, List.find?, ha]
    · have ht : n ∈ t.map (fun idx => idx.name) := by
        simp only [List.map_cons, List.mem_cons] at h
        rcases h with h1 | h1
        · exact absurd h1.symm ha
        · exact h1
      simpa [upsertIntoIndex, recordsOf, List.find?, ha] using ih ht

/-- C6 (amended): for every non-empty list of chunks,
`create_vector_store` returns the vector-store handle on the named index
(not a count), and its remote effect is to append to that index one record
per chunk — the count written equals the number of chunks — where the
`j`-th record holds the embedding of the `j`-th chunk's content together
with that content and the chunk's metadata. -/
theorem C6_create_vector_store_upserts (embed : String → List Int)
    (ids : Nat → String) (chunks : List Document) (name key : String)
    (st : RemoteState) (h : chunks ≠ []) :
    (create_vector_store embed ids chunks name key st).1 = PyRet.store name ∧
    recordsOf (create_vector_store embed ids chunks name key st).2 name =
      recordsOf (ensure_index_exists st name) name ++
        upsertRecords embed ids 0 chunks ∧
    (upsertRecords embed ids 0 chunks).length = chunks.length ∧
    ∀ j : Nat,
      (upsertRecords embed ids 0 chunks)[j]? =
        (chunks[j]?).map fun c =>
          { id := ids j, vector := embed c.page_content,
            content := c.page_content, metadata := c.metadata } := by
  refine ⟨rfl, ?_, upsertRecords_length embed ids chunks 0, ?_⟩
  · exact recordsOf_upsertIntoIndex name (upsertRecords embed ids 0 chunks)
      (ensure_index_exists st name)
      (mem_names_ensure_index st name 384 "cosine" "aws" "us-east-1")
  · intro j
    simpa using upsertRecords_getElem embed ids chunks 0 j

theorem C6_create_vector_store_upserts_witness :
    ([{ page_content := "Alice resume", metadata := [("source", "alice_resume.pdf")] }]
        : List Document) ≠ [] ∧
    recordsOf
        (create_vector_store (fun s => [(s.length : Int)]) (fun _ => "id0")
          [{ page_content := "Alice resume", metadata := [("source", "alice_resume.pdf")] }]
          "resumes-index" "key" []).2 "resumes-index" =
      [{ id := "id0", vector := [12], content := "Alice resume",
         metadata := [("source", "alice_resume.pdf")] }] := by
  refine ⟨by decide, ?_⟩
  have h := (C6_create_vector_store_upserts (fun s => [(s.length : Int)])
      (fun _ => "id0")
      [{ page_content := "Alice resume", metadata := [("source", "alice_resume.pdf")] }]
      "resumes-index" "key" [] (by decide)).2.1
  rw [h]
  decide

/-- C6 counterexample: at a concrete one-chunk input the value
`create_vector_store` hands back to its caller is the vector-store handle,
not the count of records written (which is 1 here): the claim's "returns
the count of records written" is false of the code. -/
theorem C6_counterexample_returns_store_not_count :
    (create_vector_store (fun s => [(s.length : Int)]) (fun _ => "id0")
        [{ page_content := "Alice resume", metadata := [("source", "alice_resume.pdf")] }]
        "resumes-index" "key" []).1 = PyRet.store "resumes-index" ∧
    (create_vector_store (fun s => [(s.length : Int)]) (fun _ => "id0")
        [{ page_content := "Alice resume", metadata := [("source", "alice_resume.pdf")] }]
        "resumes-index" "key" []).1 ≠ PyRet.count 1 :=
  ⟨rfl, by decide⟩

/-- Every window the splitter emits has at most `size` characters. -/
theorem splitCharsGo_length_le (size step : Nat) :
    ∀ (fuel : Nat) (cs : List Char), ∀ x ∈ splitCharsGo size step fuel cs,
      x.length ≤ size := by
  intro fuel
  induction fuel with
  | zero =>
    intro cs x hx
    simp only [splitCharsGo, List.mem_singleton] at hx
    subst hx
    exact List.length_take_le _ _
  | succ f ih =>
    intro cs x hx
    simp only [splitCharsGo] at hx
    split at hx
    · simp only [List.mem_singleton] at hx
      subst hx
      exact List.length_take_le _ _
    · rcases List.mem_cons.mp hx with h1 | h1
      · subst h1
        exact List.length_take_le _ _
      · exact ih (cs.drop step) x h1

/-- C7: with `chunk_overlap < chunk_size`, every chunk produced by
`split_docs` has content of length at most `chunk_size`, and every chunk's
metadata equals its parent document's metadata unchanged (so the `source`
value is retained). -/
theorem C7_split_docs_bounds_and_metadata (docs : List Document)
    (size overlap : Nat) (h : overlap < size) :
    ∀ chunk ∈ split_docs docs size overlap,
      chunk.page_content.length ≤ size ∧
      ∃ d ∈ docs, chunk.metadata = d.metadata := by
  intro chunk hc
  simp only [split_docs, List.mem_flatMap, List.mem_map] at hc
  obtain ⟨d, hd, cs, hcs, hchunk⟩ := hc
  subst hchunk
  refine ⟨?_, d, hd, rfl⟩
  exact splitCharsGo_length_le size (size - overlap) _ d.page_content.data cs hcs

theorem C7_split_docs_bounds_and_metadata_witness :
    2 < 5 ∧
    ({ page_content := "defgh", metadata := [("source", "a.pdf")] } : Document) ∈
      split_docs [{ page_content := "abcdefgh", metadata := [("source", "a.pdf")] }] 5 2 ∧
    (({ page_content := "defgh", metadata := [("source", "a.pdf")] } : Document).page_content.length ≤ 5 ∧
      ∃ d ∈ [({ page_content := "abcdefgh", metadata := [("source", "a.pdf")] } : Document)],
        ({ page_content := "defgh", metadata := [("source", "a.pdf")] } : Document).metadata = d.metadata) :=
  ⟨by decide, by decide,
   C7_split_docs_bounds_and_metadata
      [{ page_content := "abcdefgh", metadata := [("source", "a.pdf")] }] 5 2
      (by decide)
      { page_content := "defgh", metadata := [("source", "a.pdf")] } (by decide)⟩

/-- C9: the one-shot ingestion command exits with status 1 when either
required credential is missing or blank, exits with status 1 when zero
documents are loaded from the resumes directory, and otherwise completes
the upsert and finishes on the exit-0 path. -/
theorem C9_ingest_exit_codes (env : String → Option String)
    (docsOf : String → List Document) (embed : String → List Int)
    (ids : Nat → String) (st : RemoteState) :
    (pyStrip ((env "PINECONE_API_KEY").getD "") = "" →
      ingest_main env docsOf embed ids st = Except.error 1) ∧
    (pyStrip ((env "HUGGINGFACEHUB_API_TOKEN").getD "") = "" →
      ingest_main env docsOf embed ids st = Except.error 1) ∧
    (pyStrip ((env "PINECONE_API_KEY").getD "") ≠ "" →
     pyStrip ((env "HUGGINGFACEHUB_API_TOKEN").getD "") ≠ "" →
     docsOf ((env "RESUMES_DIR").getD "./resumes") = [] →
      ingest_main env docsOf embed ids st = Except.error 1) ∧
    (pyStrip ((env "PINECONE_API_KEY").getD "") ≠ "" →
     pyStrip ((env "HUGGINGFACEHUB_API_TOKEN").getD "") ≠ "" →
     docsOf ((env "RESUMES_DIR").getD "./resumes") ≠ [] →
      ∃ st2, ingest_main env docsOf embed ids st = Except.ok st2) := by
  refine ⟨?_, ?_, ?_, ?_⟩
  · intro h1
    simp [ingest_main, require_env, h1]
  · intro h2
    by_cases h1 : pyStrip ((env "PINECONE_API_KEY").getD "") = "" <;>
      simp [ingest_main, require_env, h1, h2]
  · intro h1 h2 h3
    simp [ingest_main, require_env, h1, h2, h3]
  · intro h1 h2 h3
    simp [ingest_main, require_env, h1, h2, h3]

theorem C9_ingest_exit_codes_witness :
    ingest_main (fun _ => none)
        (fun _ => [{ page_content := "abc", metadata := [("source", "a.pdf")] }])
        (fun s => [(s.length : Int)]) (fun _ => "id0") [] = Except.error 1 ∧
    ∃ st2,
      ingest_main
          (fun n => if n = "PINECONE_API_KEY" then some "pk"
                    else if n = "HUGGINGFACEHUB_API_TOKEN" then some "ht" else none)
          (fun _ => [{ page_content := "abc", metadata := [("source", "a.pdf")] }])
          (fun s => [(s.length : Int)]) (fun _ => "id0") [] = Except.ok st2 :=
  ⟨(C9_ingest_exit_codes (fun _ => none)
      (fun _ => [{ page_content := "abc", metadata := [("source", "a.pdf")] }])
      (fun s => [(s.length : Int)]) (fun _ => "id0") []).1 (by decide),
   (C9_ingest_exit_codes
      (fun n => if n = "PINECONE_API_KEY" then some "pk"
                else if n = "HUGGINGFACEHUB_API_TOKEN" then some "ht" else none)
      (fun _ => [{ page_content := "abc", metadata := [("source", "a.pdf")] }])
      (fun s => [(s.length : Int)]) (fun _ => "id0") []).2.2.2
      (by decide) (by decide) (by decide)⟩

/-- A concatenation contains the image of each of its members. -/
theorem containsSub_concat_map {α : Type} (f : α → String) :
    ∀ (parts : List α) (p : α), p ∈ parts →
      containsSub (concatStrings (parts.map f)) (f p) := by
  intro parts
  induction parts with
  | nil => intro p hp; cases hp
  | cons a t ih =>
    intro p hp
    rcases List.mem_cons.mp hp with h1 | h1
    · subst h1
      exact containsSub_append_left _ (containsSub_refl _)
    · exact containsSub_append_right _ (ih p h1)

/-- The concatenated context contains each retrieved chunk's content. -/
theorem formatContext_contains :
    ∀ (docs : List Document), ∀ d ∈ docs,
      containsSub (formatContext docs) d.page_content := by
  intro docs
  induction docs with
  | nil => intro d hd; cases hd
  | cons a t ih =>
    intro d hd
    rcases List.mem_cons.mp hd with h1 | h1
    · subst h1
      cases t with
      | nil => exact containsSub_refl _
      | cons b t2 =>
        exact containsSub_append_left _
          (containsSub_append_left _ (containsSub_refl _))
    · cases t with
      | nil => cases h1
      | cons b t2 =>
        exact containsSub_append_right _ (ih d h1)

/-- C3: `build_rag_chain` configures the retriever with the requested `k`,
which defaults to 5 when unspecified, and the modelled index-side
`retrieve` returns exactly `min k n` records (`n` the index size) — hence
at most `k`, and fewer than `k` only when the index holds fewer than `k`
records — ranked by descending similarity to the query. -/
theorem C3_retrieval_top_k
    (retrieveFn : String → Nat → Except String (List Document))
    (llm : String → Except String String) (score : String → String → Int)
    (st : RemoteState) (index_name query : String) (k : Nat) :
    (build_rag_chain retrieveFn llm).k = 5 ∧
    (∀ k2 : Nat, (build_rag_chain retrieveFn llm k2).k = k2) ∧
    (retrieve score st index_name query k).length =
      min k (recordsOf st index_name).length ∧
    (retrieve score st index_name query k).length ≤ k ∧
    ((retrieve score st index_name query k).length < k →
      (recordsOf st index_name).length < k) ∧
    List.Sorted (simOrder score query) (retrieve score st index_name query k) := by
  have hlen : (retrieve score st index_name query k).length =
      min k (recordsOf st index_name).length := by
    simp [retrieve, List.length_take, List.length_insertionSort]
  refine ⟨rfl, fun k2 => rfl, hlen, ?_, ?_, ?_⟩
  · rw [hlen]; exact Nat.min_le_left _ _
  · rw [hlen]; omega
  · exact List.Pairwise.sublist (List.take_sublist _ _)
      (List.sorted_insertionSort _ _)

theorem C3_retrieval_top_k_witness :
    (build_rag_chain (fun _ _ => Except.ok []) (fun p => Except.ok p)).k = 5 ∧
    (retrieve (fun _ c => (c.length : Int))
        [{ name := "resumes-index", dimension := 384, metric := "cosine",
           cloud := "aws", region := "us-east-1",
           records := [{ id := "a", vector := [1], content := "Alice", metadata := [] },
                       { id := "b", vector := [2], content := "Bob resume", metadata := [] }] }]
        "resumes-index" "q" 5).length ≤ 5 ∧
    (recordsOf
        [{ name := "resumes-index", dimension := 384, metric := "cosine",
           cloud := "aws", region := "us-east-1",
           records := [{ id := "a", vector := [1], content := "Alice", metadata := [] },
                       { id := "b", vector := [2], content := "Bob resume", metadata := [] }] }]
        "resumes-index").length < 5 :=
  ⟨(C3_retrieval_top_k (fun _ _ => Except.ok []) (fun p => Except.ok p)
      (fun _ c => (c.length : Int)) [] "resumes-index" "q" 5).1,
   (C3_retrieval_top_k (fun _ _ => Except.ok []) (fun p => Except.ok p)
      (fun _ c => (c.length : Int))
      [{ name := "resumes-index", dimension := 384, metric := "cosine",
         cloud := "aws", region := "us-east-1",
         records := [{ id := "a", vector := [1], content := "Alice", metadata := [] },
                     { id := "b", vector := [2], content := "Bob resume", metadata := [] }] }]
      "resumes-index" "q" 5).2.2.2.1,
   (C3_retrieval_top_k (fun _ _ => Except.ok []) (fun p => Except.ok p)
      (fun _ c => (c.length : Int))
      [{ name := "resumes-index", dimension := 384, metric := "cosine",
         cloud := "aws", region := "us-east-1",
         records := [{ id := "a", vector := [1], content := "Alice", metadata := [] },
                     { id := "b", vector := [2], content := "Bob resume", metadata := [] }] }]
      "resumes-index" "q" 5).2.2.2.2.1 (by decide)⟩

/-- C4: when the retriever answers the query with `docs`, the chain calls
the model on exactly the fixed HR template rendered with the concatenated
chunk content in the `{context}` slot and the raw question in the
`{input}` slot, and that rendered prompt contains the full context text,
the literal question text, and each retrieved chunk's literal content. -/
theorem C4_rendered_prompt_contains_chunks_and_question
    (retrieveFn : String → Nat → Except String (List Document))
    (llm : String → Except String String) (docs : List Document) (q : String)
    (h : retrieveFn q 5 = Except.ok docs) :
    (build_rag_chain retrieveFn llm).run q =
      llm (renderPrompt (formatContext docs) q) ∧
    containsSub (renderPrompt (formatContext docs) q) (formatContext docs) ∧
    containsSub (renderPrompt (formatContext docs) q) q ∧
    ∀ d ∈ docs, containsSub (renderPrompt (formatContext docs) q) d.page_content := by
  have hctx : containsSub (renderPrompt (formatContext docs) q) (formatContext docs) := by
    have := containsSub_concat_map (renderPart (formatContext docs) q)
      HR_PROMPT_PARTS TemplatePart.contextSlot (by decide)
    simpa [renderPrompt, renderPart] using this
  refine ⟨by simp [build_rag_chain, h], hctx, ?_, ?_⟩
  · have := containsSub_concat_map (renderPart (formatContext docs) q)
      HR_PROMPT_PARTS TemplatePart.inputSlot (by decide)
    simpa [renderPrompt, renderPart] using this
  · intro d hd
    exact containsSub_trans hctx (formatContext_contains docs d hd)

theorem C4_rendered_prompt_contains_chunks_and_question_witness :
    containsSub
      (renderPrompt
        (formatContext [{ page_content := "Alice is a Python developer with Django experience.",
                          metadata := [("source", "alice_resume.pdf")] }])
        "Which candidate has Django experience?")
      "Which candidate has Django experience?" ∧
    containsSub
      (renderPrompt
        (formatContext [{ page_content := "Alice is a Python developer with Django experience.",
                          metadata := [("source", "alice_resume.pdf")] }])
        "Which candidate has Django experience?")
      "Alice is a Python developer with Django experience." :=
  ⟨(C4_rendered_prompt_contains_chunks_and_question
      (fun _ _ => Except.ok
        [{ page_content := "Alice is a Python developer with Django experience.",
           metadata := [("source", "alice_resume.pdf")] }])
      (fun p => Except.ok p)
      [{ page_content := "Alice is a Python developer with Django experience.",
         metadata := [("source", "alice_resume.pdf")] }]
      "Which candidate has Django experience?" rfl).2.2.1,
   (C4_rendered_prompt_contains_chunks_and_question
      (fun _ _ => Except.ok
        [{ page_content := "Alice is a Python developer with Django experience.",
           metadata := [("source", "alice_resume.pdf")] }])
      (fun p => Except.ok p)
      [{ page_content := "Alice is a Python developer with Django experience.",
         metadata := [("source", "alice_resume.pdf")] }]
      "Which candidate has Django experience?" rfl).2.2.2
      { page_content := "Alice is a Python developer with Django experience.",
        metadata := [("source", "alice_resume.pdf")] }
      (List.mem_singleton.mpr rfl)⟩

end ResumeScreener
